import Mathlib

/-!
Verification development for the finl_parse tokenizer.

The definitions below are a shallow embedding of the Rust sources
`src/lib.rs`, `src/tokens.rs`, `src/commands.rs`.  State-passing replaces
`&mut self`; the `Peekable<CharIndices>` iterator is a list of
(byte offset, char) pairs; loops and the mutually recursive scanner are
given explicit fuel.  Byte offsets follow UTF-8 exactly via `Char.utf8Size`.
-/

namespace FinlParse

/-- `Line` from tokens.rs (file, 1-based line number, contents). -/
structure Line where
  file : String
  lineNumber : Nat
  contents : String
deriving DecidableEq, Repr

/-- `Line::default()`: all fields defaulted. -/
def Line.defaultLine : Line := { file := "", lineNumber := 0, contents := "" }

/-- `Location` from tokens.rs. -/
structure Location where
  file : String
  lineNumber : Nat
  column : Nat
deriving DecidableEq, Repr

/-- `Location::from_line_and_column`. -/
def Location.from_line_and_column (line : Line) (column : Nat) : Location :=
  { file := line.file, lineNumber := line.lineNumber, column := column }

/-- `ParameterFormat` from commands.rs. -/
inductive ParameterFormat
  | Star
  | Required
  | RequiredWithBraces
  | Optional
  | ArbitraryDelimiters
deriving DecidableEq, Repr

/-- `ParameterType` from commands.rs. -/
inductive ParameterType
  | ParsedTokens
  | VerbatimText
  | Boolean
  | KeyValueList
  | MacroDefinition
  | Math
  | YAML
deriving DecidableEq, Repr

/-- `Command` from commands.rs. -/
structure Command where
  name : String
  parameters : List (ParameterFormat × ParameterType)
deriving DecidableEq, Repr

/-- `Environment` from commands.rs. -/
structure Environment where
  name : String
  args : List (ParameterFormat × ParameterType)
  bodyType : ParameterType
deriving DecidableEq, Repr

/-- `GroupType` from tokens.rs. -/
inductive GroupType
  | Brace
  | Environment (env : FinlParse.Environment)
  | RequiredArgument
  | OptionalArgument
  | ArbitraryDelim (delim : String)
deriving DecidableEq, Repr

/-- `ErrorContext` from tokens.rs. -/
structure ErrorContext where
  location : Location
  lineContents : String
deriving DecidableEq, Repr

/-- `ErrorContext::from_line_and_column`. -/
def ErrorContext.from_line_and_column (line : Line) (column : Nat) : ErrorContext :=
  { location := Location.from_line_and_column line column,
    lineContents := line.contents }

/-- `FinlError` from tokens.rs. -/
inductive FinlError
  | UndefinedCommand (ctx : ErrorContext) (name : String)
  | Unimplemented (ctx : ErrorContext)
  | BlankLineWhileParsingCommandArguments (ctx : ErrorContext) (name : String) (argNumber : Nat)
  | UnexpectedEOFWhileParsingCommandArguments (ctx : ErrorContext) (name : String) (argNumber : Nat)
  | UnexpectedCloseBrace (ctx : ErrorContext) (groupType : Option GroupType)
deriving DecidableEq, Repr

/-- `Token` from tokens.rs. -/
inductive Token
  | ParsedText (loc : Location) (text : String)
  | Math (loc : Location) (math : String)
  | Command (loc : Location) (cmd : FinlParse.Command) (args : List Token)
  | Environment (loc : Location) (env : FinlParse.Environment)
      (args : List Token) (body : List Token)
  | RawText (loc : Location) (text : String)
  | Bgroup (loc : Location)
  | Egroup (loc : Location)
  | Tokens (loc : Location) (tokens : List Token)
deriving Repr

/-- `ParserState` / `CommandContext` enums from lib.rs. -/
inductive CommandContext
  | Text
  | UserCommandDefinition
  | Math
deriving DecidableEq, Repr

/-- `SkipWhiteSpaceOutcome` from lib.rs. -/
inductive SkipWhiteSpaceOutcome
  | Skipped
  | FoundBlankLine
  | EndOfFile
deriving DecidableEq, Repr

/-- Rust `char::is_whitespace`: the Unicode White_Space property. -/
def isWhitespace (c : Char) : Bool :=
  (0x09 ≤ c.toNat && c.toNat ≤ 0x0D) || c.toNat = 0x20 || c.toNat = 0x85 ||
  c.toNat = 0xA0 || c.toNat = 0x1680 ||
  (0x2000 ≤ c.toNat && c.toNat ≤ 0x200A) ||
  c.toNat = 0x2028 || c.toNat = 0x2029 || c.toNat = 0x202F ||
  c.toNat = 0x205F || c.toNat = 0x3000

/-- `letter_test` from lib.rs:412 (`is_letter || is_mark_nonspacing ||
is_mark_spacing_combining`, i.e. Unicode categories L, Mn, Mc).  Modelled
over the ASCII subset, where those categories are exactly the ASCII
letters; every input exercised by the claims is ASCII. -/
def letter_test (c : Char) : Bool :=
  c.isAlpha

/-- Rust `str::char_indices`: (UTF-8 byte offset, char) pairs. -/
def charIndicesAux : Nat → List Char → List (Nat × Char)
  | _, [] => []
  | i, c :: cs => (i, c) :: charIndicesAux (i + c.utf8Size) cs

/-- Iterator made by `line.char_indices()`. -/
def charIndices (s : String) : List (Nat × Char) :=
  charIndicesAux 0 s.data

/-- `contents.get(start..end)` on valid char boundaries: the characters
whose byte offsets fall in `[start, end)`. -/
def textSlice (contents : String) (start stop : Nat) : String :=
  String.mk ((charIndices contents).filterMap
    (fun p => if start ≤ p.1 && p.1 < stop then some p.2 else none))

/-- One trailing `\r` stripped, as `str::lines` does. -/
def stripCr (l : List Char) : List Char :=
  if l.getLast? = some '\r' then l.dropLast else l

/-- Split a character list on `'\n'`. -/
def splitNl : List Char → List (List Char)
  | [] => [[]]
  | c :: rest =>
      if c = '\n' then [] :: splitNl rest
      else
        match splitNl rest with
        | [] => [[c]]
        | l :: ls => (c :: l) :: ls

/-- Rust `str::lines`: split on `\n`, a trailing newline yields no final
empty line, one `\r` before each split point is stripped. -/
def rustLines (s : String) : List String :=
  match s.data with
  | [] => []
  | cs =>
      let parts := splitNl cs
      let parts := if cs.getLast? = some '\n' then parts.dropLast else parts
      parts.map (fun l => String.mk (stripCr l))

/-- The `Parser` struct from lib.rs.  The `HashMap`s are association
lists whose most recent insertion wins on lookup; the boxed line iterator
is the list of lines not yet pulled; the peekable char iterator is the
list of (byte offset, char) pairs not yet consumed. -/
structure Parser where
  commands : List (String × Command)
  environments : List (String × Environment)
  lines : List String
  line : Line
  charIter : List (Nat × Char)
  output : List (Except FinlError Token)
  stack : List GroupType
deriving Repr

/-- `HashMap::get` on the association list (latest insertion first). -/
def lookupCommand (cmds : List (String × Command)) (name : String) : Option Command :=
  (cmds.find? (fun p => p.1 == name)).map (fun p => p.2)

/-- `Parser::define_command`. -/
def define_command (s : Parser) (name : String)
    (args : List (ParameterFormat × ParameterType)) : Parser :=
  { s with commands := (name, { name := name, parameters := args }) :: s.commands }

/-- `Parser::next_line` (lib.rs:150): pull the next line, or reset to the
default line on exhaustion; returns whether a line was available. -/
def next_line (s : Parser) : Bool × Parser :=
  match s.lines with
  | [] =>
      (false, { s with line := Line.defaultLine, charIter := [] })
  | l :: rest =>
      (true, { s with
        lines := rest,
        line := { file := s.line.file,
                  lineNumber := s.line.lineNumber + 1,
                  contents := l },
        charIter := charIndices l })

/-- `Parser::from_string` (lib.rs:70). -/
def from_string (input : String) : Parser :=
  let s : Parser :=
    { commands := [], environments := [],
      lines := rustLines input,
      line := { file := "STRING CONSTANT", lineNumber := 0, contents := "" },
      charIter := [], output := [], stack := [] }
  (next_line s).2

/-- `Parser::push_text_block` (lib.rs:100). -/
def push_text_block (s : Parser) (start stop : Nat) : Parser :=
  if start ≠ stop then
    { s with output := s.output ++
        [Except.ok (Token.ParsedText (Location.from_line_and_column s.line start)
          (textSlice s.line.contents start stop))] }
  else s

/-- `Parser::push_eol_text_block` (lib.rs:97): flush up to the byte
length of the current line. -/
def push_eol_text_block (s : Parser) (start : Nat) : Parser :=
  push_text_block s start s.line.contents.utf8ByteSize

/-- `Parser::push_error`. -/
def push_error (s : Parser) (e : FinlError) : Parser :=
  { s with output := s.output ++ [Except.error e] }

/-- `Parser::push_token`. -/
def push_token (s : Parser) (t : Token) : Parser :=
  { s with output := s.output ++ [Except.ok t] }

/-- `Parser::push_command` (lib.rs:110). -/
def push_command (s : Parser) (command : Command) (args : List Token)
    (column : Nat) : Parser :=
  push_token s (Token.Command (Location.from_line_and_column s.line column) command args)

/-- `Parser::undefined_command` (lib.rs:166). -/
def undefined_command (s : Parser) (commandName : String) (column : Nat) : FinlError :=
  FinlError.UndefinedCommand (ErrorContext.from_line_and_column s.line column) commandName

/-- `Parser::unimplemented` (lib.rs:171). -/
def unimplemented_error (s : Parser) (column : Nat) : FinlError :=
  FinlError.Unimplemented (ErrorContext.from_line_and_column s.line column)

/-- `Parser::blank_line_while_parsing_command_arguments` (lib.rs:176);
the column is always 0. -/
def blank_line_while_parsing_command_arguments (s : Parser)
    (commandName : String) (argNumber : Nat) : FinlError :=
  FinlError.BlankLineWhileParsingCommandArguments
    (ErrorContext.from_line_and_column s.line 0) commandName argNumber

/-- `Parser::unexpected_eof_while_parsing_command_arguments` (lib.rs:183);
the column is always 0. -/
def unexpected_eof_while_parsing_command_arguments (s : Parser)
    (commandName : String) (argNumber : Nat) : FinlError :=
  FinlError.UnexpectedEOFWhileParsingCommandArguments
    (ErrorContext.from_line_and_column s.line 0) commandName argNumber

/-- `Parser::unexpected_close_brace` (lib.rs:189). -/
def unexpected_close_brace (s : Parser) (groupType : Option GroupType)
    (column : Nat) : FinlError :=
  FinlError.UnexpectedCloseBrace
    (ErrorContext.from_line_and_column s.line column) groupType

/-- `Parser::get_column` (lib.rs:255): peek the next column, pulling the
next line (and answering 0) when the current line is exhausted. -/
def get_column (s : Parser) : Nat × Parser :=
  match s.charIter with
  | [] => (0, (next_line s).2)
  | (column, _) :: _ => (column, s)

/-- The loop of `Parser::skip_whitespace` (lib.rs:118), with the running
count of `next_line` calls; fueled (fuel bounds loop iterations). -/
def skip_whitespace_loop : Nat → Nat → Parser → SkipWhiteSpaceOutcome × Parser
  | 0, _, s => (SkipWhiteSpaceOutcome.EndOfFile, s)
  | fuel + 1, newLineCount, s =>
    match s.charIter with
    | [] =>
        match next_line s with
        | (false, s') => (SkipWhiteSpaceOutcome.EndOfFile, s')
        | (true, s') => skip_whitespace_loop fuel (newLineCount + 1) s'
    | (_, ch) :: rest =>
        if isWhitespace ch then
          skip_whitespace_loop fuel newLineCount { s with charIter := rest }
        else
          (if newLineCount > 1 then SkipWhiteSpaceOutcome.FoundBlankLine
           else SkipWhiteSpaceOutcome.Skipped, s)

/-- `Parser::skip_whitespace`. -/
def skip_whitespace (fuel : Nat) (s : Parser) : SkipWhiteSpaceOutcome × Parser :=
  skip_whitespace_loop fuel 0 s

/-- The letter loop of `Parser::get_command_name` (lib.rs:311): consume a
maximal run of letters; on meeting a non-letter, consume the immediately
following whitespace run; stop silently at end of line. -/
def consumeLetters : List (Nat × Char) → String × List (Nat × Char)
  | [] => ("", [])
  | (c, ch) :: rest =>
      if letter_test ch then
        let r := consumeLetters rest
        (ch.toString ++ r.1, r.2)
      else
        ("", consumeWhitespaceRun ((c, ch) :: rest))
where
  /-- consume one run of whitespace at the head of the iterator -/
  consumeWhitespaceRun : List (Nat × Char) → List (Nat × Char)
    | [] => []
    | (c, ch) :: rest =>
        if isWhitespace ch then consumeWhitespaceRun rest else (c, ch) :: rest

/-- `Parser::get_command_name` (lib.rs:303).  A backslash at end of line
names the command `" "`; a leading letter starts a maximal letter run
followed by a whitespace skip (the trailing-whitespace loop at
lib.rs:337 repeats that skip); a leading non-letter is itself the name
and is not consumed. -/
def get_command_name (s : Parser) (_cctx : CommandContext) : String × Parser :=
  match s.charIter with
  | [] => (" ", s)
  | (_, ch) :: _ =>
      if letter_test ch then
        let r := consumeLetters s.charIter
        let it := consumeLetters.consumeWhitespaceRun r.2
        (r.1, { s with charIter := it })
      else
        (ch.toString, s)

/-- The `}` arm of the text scanner loop (lib.rs:229-245): pop the group
stack; a popped `Brace` emits `Egroup`; a popped `RequiredArgument`
returns to the caller (the Bool answers whether the scanner returns,
leaving the `}` unconsumed); anything else emits `UnexpectedCloseBrace`
and pushes back whatever was popped. -/
def handle_close_brace (s : Parser) (column : Nat) : Parser × Bool :=
  let top_of_stack := s.stack.head?
  match s.stack with
  | GroupType.Brace :: rest =>
      (push_token { s with stack := rest }
        (Token.Egroup (Location.from_line_and_column s.line column)), false)
  | _ =>
      if top_of_stack = some GroupType.RequiredArgument then
        ({ s with stack := s.stack.tail }, true)
      else
        let s' := { s with stack := s.stack.tail }
        let s' := push_error s' (unexpected_close_brace s' top_of_stack column)
        match top_of_stack with
        | some g => ({ s' with stack := g :: s'.stack }, false)
        | none => (s', false)

mutual

/-- `Parser::text_parse` (lib.rs:194): skip leading whitespace at column
0, then run the scanning loop starting the pending text run at the
peeked column; an exhausted line returns at once. -/
def text_parse : Nat → Parser → Parser
  | 0, s => s
  | fuel + 1, s =>
    let s :=
      match s.charIter with
      | (0, _) :: _ => (skip_whitespace fuel s).2
      | _ => s
    match s.charIter with
    | [] => s
    | (column, _) :: _ => text_loop fuel column s
termination_by structural fuel => fuel

/-- The `while let` loop of `Parser::text_parse` (lib.rs:209-252);
`start` is the column where the pending text run began.  On `\` the
command dispatcher runs; `%` flushes, drops the rest of the line and
returns; `{` emits `Bgroup` and pushes `Brace`; `}` is handled by
`handle_close_brace`; anything else extends the pending run.  An
exhausted iterator flushes the run to end of line. -/
def text_loop : Nat → Nat → Parser → Parser
  | 0, _, s => s
  | fuel + 1, start, s =>
    match s.charIter with
    | [] => push_eol_text_block s start
    | (column, ch) :: rest =>
      if ch = '\\' then
        let s := push_text_block s start column
        let s := command_parse fuel CommandContext.Text s
        let p := get_column s
        text_loop fuel p.1 p.2
      else if ch = '%' then
        let s := push_text_block s start column
        (next_line s).2
      else if ch = '{' then
        let s := push_text_block s start column
        let s := push_token s (Token.Bgroup (Location.from_line_and_column s.line column))
        let s := { s with charIter := rest, stack := GroupType.Brace :: s.stack }
        let p := get_column s
        text_loop fuel p.1 p.2
      else if ch = '}' then
        let s := push_text_block s start column
        let r := handle_close_brace s column
        if r.2 then r.1
        else
          let s := { r.1 with charIter := r.1.charIter.tail }
          let p := get_column s
          text_loop fuel p.1 p.2
      else
        text_loop fuel start { s with charIter := rest }
termination_by structural fuel => fuel

/-- `Parser::command_parse` (lib.rs:267): consume the backslash
(remembering its column), read the command name, look it up; an unknown
name emits `UndefinedCommand` at the backslash's column; a known one has
its parameters resolved in order.  (The source `expect`s the iterator to
be nonempty; call sites guarantee it.) -/
def command_parse : Nat → CommandContext → Parser → Parser
  | 0, _, s => s
  | fuel + 1, cctx, s =>
    match s.charIter with
    | [] => s
    | (command_start, _) :: rest =>
      let s := { s with charIter := rest }
      let r := get_command_name s cctx
      match lookupCommand r.2.commands r.1 with
      | none => push_error r.2 (undefined_command r.2 r.1 command_start)
      | some command =>
          resolve_arguments fuel cctx command command.parameters 0 command_start r.2 []
termination_by structural fuel => fuel

/-- The parameter loop of `Parser::command_parse` (lib.rs:275-298):
resolve each declared parameter in order (1-based numbering); the first
failure pushes that error and abandons the rest; full success pushes the
`Command` token at the invocation's start column. -/
def resolve_arguments : Nat → CommandContext → Command →
    List (ParameterFormat × ParameterType) → Nat → Nat → Parser → List Token → Parser
  | 0, _, _, _, _, _, s, _ => s
  | _ + 1, _, command, [], _, command_start, s, args =>
      push_command s command args command_start
  | fuel + 1, cctx, command, (format, ptype) :: rest, parameter_number, command_start, s, args =>
      let pn := parameter_number + 1
      let r := resolve_one_argument fuel cctx command format ptype pn command_start s
      match r.2 with
      | Except.ok token =>
          resolve_arguments fuel cctx command rest pn command_start r.1 (args ++ [token])
      | Except.error e => push_error r.1 e
termination_by structural fuel => fuel

/-- The `match format` of `Parser::command_parse` (lib.rs:279-287): only
`Required` is implemented; every other format is `Unimplemented` at the
command's start column. -/
def resolve_one_argument : Nat → CommandContext → Command → ParameterFormat →
    ParameterType → Nat → Nat → Parser → Parser × Except FinlError Token
  | 0, _, _, _, _, _, _, s => (s, Except.error (unimplemented_error s 0))
  | fuel + 1, cctx, command, format, ptype, parameter_number, command_start, s =>
      match format with
      | ParameterFormat.Required =>
          parse_required_argument fuel command.name parameter_number cctx ptype s
      | _ => (s, Except.error (unimplemented_error s command_start))
termination_by structural fuel => fuel

/-- `Parser::parse_required_argument` (lib.rs:355): skip whitespace
(blank line and EOF are errors carrying the command name and 1-based
parameter number); on `{` push `RequiredArgument`, consume it and run
the text scanner collecting the argument's tokens via `split_off` — the
source then discards them and answers `Unimplemented` at the argument's
column (the wrapping at lib.rs:378-380 is commented out); every other
next character also answers `Unimplemented` without consuming. -/
def parse_required_argument : Nat → String → Nat → CommandContext → ParameterType →
    Parser → Parser × Except FinlError Token
  | 0, _, _, _, _, s => (s, Except.error (unimplemented_error s 0))
  | fuel + 1, command, parameter_number, cctx, _ptype, s =>
    let r := skip_whitespace fuel s
    match r.1 with
    | SkipWhiteSpaceOutcome.FoundBlankLine =>
        (r.2, Except.error
          (blank_line_while_parsing_command_arguments r.2 command parameter_number))
    | SkipWhiteSpaceOutcome.EndOfFile =>
        (r.2, Except.error
          (unexpected_eof_while_parsing_command_arguments r.2 command parameter_number))
    | SkipWhiteSpaceOutcome.Skipped =>
      match r.2.charIter with
      | [] =>
          (r.2, Except.error (unimplemented_error r.2 0))
      | (loc, ch) :: rest =>
        let s := r.2
        if ch = '{' then
          let s := { s with charIter := rest, stack := GroupType.RequiredArgument :: s.stack }
          match cctx with
          | CommandContext.Text =>
              let tokens_end := s.output.length
              let s := text_parse fuel s
              let s := { s with output := s.output.take tokens_end }
              (s, Except.error (unimplemented_error s loc))
          | _ => (s, Except.error (unimplemented_error s loc))
        else
          (s, Except.error (unimplemented_error s loc))
termination_by structural fuel => fuel

end

/-- `Parser::parse` (lib.rs:92): run the text scanner once and hand the
whole output stream to the caller. -/
def parse (fuel : Nat) (s : Parser) : List (Except FinlError Token) :=
  (text_parse fuel s).output

/-- Claim C1: on `\foo{a} \foo b \foo\foo{c}` with `foo` registered as one
Required/ParsedTokens parameter, the code does NOT emit three `Command`
tokens: `parse_required_argument` discards every collected argument and
answers `Unimplemented` (lib.rs:377, the wrapping at lib.rs:378-380 being
commented out), so the stream is three `Unimplemented` errors for the
braced arguments plus one for the single-token argument, two stray
`UnexpectedCloseBrace` errors for the orphaned closing braces, and two
text runs — no `Command` token at all.  This evaluates the code at the
claim's input, witnessing the divergence from the specified behaviour
(which the commented-out test `can_parse_a_command_with_single_required_argument_parsed_text`
also expects). -/
theorem c1_nesting_emits_unimplemented :
    parse 100 (define_command (from_string ("\\foo{a} \\foo b \\foo\\foo{c}")) ("foo")
        [(ParameterFormat.Required, ParameterType.ParsedTokens)])
      = [Except.error (FinlError.Unimplemented
           ⟨⟨"STRING CONSTANT", 1, 4⟩, "\\foo{a} \\foo b \\foo\\foo{c}"⟩),
         Except.error (FinlError.UnexpectedCloseBrace
           ⟨⟨"STRING CONSTANT", 1, 6⟩, "\\foo{a} \\foo b \\foo\\foo{c}"⟩ none),
         Except.ok (Token.ParsedText ⟨"STRING CONSTANT", 1, 7⟩ (" ")),
         Except.error (FinlError.Unimplemented
           ⟨⟨"STRING CONSTANT", 1, 13⟩, "\\foo{a} \\foo b \\foo\\foo{c}"⟩),
         Except.ok (Token.ParsedText ⟨"STRING CONSTANT", 1, 13⟩ ("b ")),
         Except.error (FinlError.Unimplemented
           ⟨⟨"STRING CONSTANT", 1, 19⟩, "\\foo{a} \\foo b \\foo\\foo{c}"⟩),
         Except.error (FinlError.Unimplemented
           ⟨⟨"STRING CONSTANT", 1, 23⟩, "\\foo{a} \\foo b \\foo\\foo{c}"⟩),
         Except.error (FinlError.UnexpectedCloseBrace
           ⟨⟨"STRING CONSTANT", 1, 25⟩, "\\foo{a} \\foo b \\foo\\foo{c}"⟩ none)] := rfl

/-- Claim C2: a single `parse` call does NOT drain a multi-line input.
`text_parse`'s scanning loop ends as soon as the current line's iterator
is exhausted, flushes the pending run and returns, and `Parser::parse`
calls it exactly once — so on the two-line input `a\nb` the second line
is never scanned: the output is only `ParsedText("a")`, not
`ParsedText("a")` then `ParsedText("b")`.  This evaluates the code at
the claim's own example input. -/
theorem c2_two_line_input_not_drained :
    parse 100 (from_string ("a\nb"))
      = [Except.ok (Token.ParsedText ⟨"STRING CONSTANT", 1, 0⟩ ("a"))] := rfl

/-- Claim C3: on `abc%def\nghi` the `%` flushes `ParsedText("abc")`,
discards the rest of the physical line (so nothing containing `def` is
ever emitted — that much of the claim holds) and RETURNS from
`text_parse`; since `Parser::parse` does not re-enter the scanner, the
next line `ghi` is never scanned and no `ParsedText("ghi")` appears,
contrary to the claim.  This evaluates the code at the claim's input. -/
theorem c3_comment_stops_parse :
    parse 100 (from_string ("abc%def\nghi"))
      = [Except.ok (Token.ParsedText ⟨"STRING CONSTANT", 1, 0⟩ ("abc"))] := rfl

/-- Claim C7: brace tokenization with no commands registered: `{}` gives
exactly `[Bgroup, Egroup]`; `{n}` gives `[Bgroup, ParsedText("n"),
Egroup]`; `{}` followed by a stray close brace adds exactly one
`UnexpectedCloseBrace` error whose group-type field is `None`. -/
theorem c7_brace_tokenization :
    parse 50 (from_string ("{}"))
      = [Except.ok (Token.Bgroup ⟨"STRING CONSTANT", 1, 0⟩),
         Except.ok (Token.Egroup ⟨"STRING CONSTANT", 1, 1⟩)] ∧
    parse 50 (from_string ("{n}"))
      = [Except.ok (Token.Bgroup ⟨"STRING CONSTANT", 1, 0⟩),
         Except.ok (Token.ParsedText ⟨"STRING CONSTANT", 1, 1⟩ ("n")),
         Except.ok (Token.Egroup ⟨"STRING CONSTANT", 1, 2⟩)] ∧
    parse 50 (from_string ("{}\x7d"))
      = [Except.ok (Token.Bgroup ⟨"STRING CONSTANT", 1, 0⟩),
         Except.ok (Token.Egroup ⟨"STRING CONSTANT", 1, 1⟩),
         Except.error (FinlError.UnexpectedCloseBrace
           ⟨⟨"STRING CONSTANT", 1, 2⟩, "{}\x7d"⟩ none)] := ⟨rfl, rfl, rfl⟩

/-- Claim C4, counterexample: with `foo` registered as one
Required/ParsedTokens parameter, the invocation `\foo{a}` starts at
column 0 but the error its failing argument contributes is located at
column 4 (the argument's opening brace), not at the command's start
column as the claim states.  (The second error comes from the text
scanner afterwards, not from the invocation.) -/
theorem c4_error_not_at_command_start :
    parse 100 (define_command (from_string ("\\foo{a}")) ("foo")
        [(ParameterFormat.Required, ParameterType.ParsedTokens)])
      = [Except.error (FinlError.Unimplemented ⟨⟨"STRING CONSTANT", 1, 4⟩, "\\foo{a}"⟩),
         Except.error (FinlError.UnexpectedCloseBrace
           ⟨⟨"STRING CONSTANT", 1, 6⟩, "\\foo{a}"⟩ none)] := rfl

/-- Claim C4, amended: whenever resolving a parameter of a registered
command fails with error `e`, the parameter loop pushes exactly that one
error onto the output stream and stops — no `Command` token is emitted
for the invocation and the remaining declared parameters (`rest`, which
the conclusion does not depend on) are never attempted.  (The error's
location is wherever argument resolution placed it, not necessarily the
command's start column.) -/
theorem c4_first_failing_argument_aborts
    (fuel : Nat) (cctx : CommandContext) (command : Command)
    (format : ParameterFormat) (ptype : ParameterType)
    (rest : List (ParameterFormat × ParameterType))
    (parameter_number command_start : Nat) (s s' : Parser)
    (args : List Token) (e : FinlError)
    (h : resolve_one_argument fuel cctx command format ptype
          (parameter_number + 1) command_start s = (s', Except.error e)) :
    resolve_arguments (fuel + 1) cctx command ((format, ptype) :: rest)
        parameter_number command_start s args
      = { s' with output := s'.output ++ [Except.error e] } := by
  simp only [resolve_arguments, h, push_error]

/-- Witness for the amended C4 at a concrete input: a `Star` parameter
(unimplemented in this build) fails at once, and the parameter loop
contributes exactly its error, ignoring the second declared parameter. -/
theorem c4_first_failing_argument_aborts_witness :
    resolve_arguments 6 CommandContext.Text
        { name := "foo",
          parameters := [(ParameterFormat.Star, ParameterType.ParsedTokens),
                         (ParameterFormat.Required, ParameterType.ParsedTokens)] }
        [(ParameterFormat.Star, ParameterType.ParsedTokens),
         (ParameterFormat.Required, ParameterType.ParsedTokens)]
        0 0 (from_string ("x")) []
      = { from_string ("x") with
          output := (from_string ("x")).output ++
            [Except.error (FinlError.Unimplemented
              ⟨⟨"STRING CONSTANT", 1, 0⟩, "x"⟩)] } :=
  c4_first_failing_argument_aborts 5 CommandContext.Text
    { name := "foo",
      parameters := [(ParameterFormat.Star, ParameterType.ParsedTokens),
                     (ParameterFormat.Required, ParameterType.ParsedTokens)] }
    ParameterFormat.Star ParameterType.ParsedTokens
    [(ParameterFormat.Required, ParameterType.ParsedTokens)]
    0 0 (from_string ("x")) (from_string ("x")) []
    (FinlError.Unimplemented ⟨⟨"STRING CONSTANT", 1, 0⟩, "x"⟩) rfl

/-- Claim C5: dispatching a backslash at column `c` whose command name is
not in the registry appends exactly one `UndefinedCommand` error carrying
that name, located at column `c` (the backslash's column), and nothing
else; and scanning resumes afterward, so `\bar a` still yields the
following `ParsedText("a")`. -/
theorem c5_undefined_command :
    (∀ (fuel : Nat) (cctx : CommandContext) (s s' : Parser) (c : Nat)
       (ch : Char) (rest : List (Nat × Char)) (name : String),
       s.charIter = (c, ch) :: rest →
       get_command_name { s with charIter := rest } cctx = (name, s') →
       lookupCommand s'.commands name = none →
       command_parse (fuel + 1) cctx s
         = { s' with output := s'.output ++
             [Except.error (FinlError.UndefinedCommand
               (ErrorContext.from_line_and_column s'.line c) name)] }) ∧
    parse 50 (from_string ("\\bar a"))
      = [Except.error (FinlError.UndefinedCommand
           ⟨⟨"STRING CONSTANT", 1, 0⟩, "\\bar a"⟩ ("bar")),
         Except.ok (Token.ParsedText ⟨"STRING CONSTANT", 1, 5⟩ ("a"))] := by
  refine ⟨?_, rfl⟩
  intro fuel cctx s s' c ch rest name h1 h2 h3
  simp only [command_parse, h1, h2, h3, push_error, undefined_command]

/-- Witness for C5: dispatching `\q` with an empty registry appends the
single `UndefinedCommand("q")` error at the backslash's column 0. -/
theorem c5_undefined_command_witness :
    command_parse 10 CommandContext.Text (from_string ("\\q"))
      = { commands := [], environments := [], lines := [],
          line := { file := "STRING CONSTANT", lineNumber := 1, contents := "\\q" },
          charIter := [], stack := [],
          output := [Except.error (FinlError.UndefinedCommand
            ⟨⟨"STRING CONSTANT", 1, 0⟩, "\\q"⟩ ("q"))] } :=
  c5_undefined_command.1 9 CommandContext.Text (from_string ("\\q"))
    { from_string ("\\q") with charIter := [] }
    0 '\\' [(1, 'q')] ("q") rfl rfl rfl

/-- Claim C6: when the whitespace skip before a Required argument reports
a blank line, argument resolution fails with
`BlankLineWhileParsingCommandArguments` carrying the command name and the
1-based parameter number; when it reports end of input, with
`UnexpectedEOFWhileParsingCommandArguments` carrying the same fields.
The two concrete runs show the blank-line case on `\foo\n\n{a}` (error
carrying `("foo", 1)`, no `Command` token in the stream) and the EOF case
on `\foo`. -/
theorem c6_whitespace_skip_errors :
    (∀ (fuel parameter_number : Nat) (command : String) (cctx : CommandContext)
       (ptype : ParameterType) (s s' : Parser),
       skip_whitespace fuel s = (SkipWhiteSpaceOutcome.FoundBlankLine, s') →
       parse_required_argument (fuel + 1) command parameter_number cctx ptype s
         = (s', Except.error (FinlError.BlankLineWhileParsingCommandArguments
             (ErrorContext.from_line_and_column s'.line 0) command parameter_number))) ∧
    (∀ (fuel parameter_number : Nat) (command : String) (cctx : CommandContext)
       (ptype : ParameterType) (s s' : Parser),
       skip_whitespace fuel s = (SkipWhiteSpaceOutcome.EndOfFile, s') →
       parse_required_argument (fuel + 1) command parameter_number cctx ptype s
         = (s', Except.error (FinlError.UnexpectedEOFWhileParsingCommandArguments
             (ErrorContext.from_line_and_column s'.line 0) command parameter_number))) ∧
    parse 100 (define_command (from_string ("\\foo\n\n{a}")) ("foo")
        [(ParameterFormat.Required, ParameterType.ParsedTokens)])
      = [Except.error (FinlError.BlankLineWhileParsingCommandArguments
           ⟨⟨"STRING CONSTANT", 3, 0⟩, "{a}"⟩ ("foo") 1),
         Except.ok (Token.Bgroup ⟨"STRING CONSTANT", 3, 0⟩),
         Except.ok (Token.ParsedText ⟨"STRING CONSTANT", 3, 1⟩ ("a")),
         Except.ok (Token.Egroup ⟨"STRING CONSTANT", 3, 2⟩)] ∧
    parse 100 (define_command (from_string ("\\foo")) ("foo")
        [(ParameterFormat.Required, ParameterType.ParsedTokens)])
      = [Except.error (FinlError.UnexpectedEOFWhileParsingCommandArguments
           ⟨⟨"", 0, 0⟩, ""⟩ ("foo") 1)] := by
  refine ⟨?_, ?_, rfl, rfl⟩ <;>
    · intro fuel parameter_number command cctx ptype s s' h
      simp only [parse_required_argument, h,
        blank_line_while_parsing_command_arguments,
        unexpected_eof_while_parsing_command_arguments]

/-- Witness for C6: on the input `\n\na` the whitespace skip crosses a
blank line, and on the empty input it runs off the end of input; required
argument resolution answers the corresponding errors carrying `("foo", 1)`. -/
theorem c6_whitespace_skip_errors_witness :
    parse_required_argument 50 ("foo") 1 CommandContext.Text
        ParameterType.ParsedTokens (from_string ("\n\na"))
      = ({ commands := [], environments := [], lines := [],
           line := { file := "STRING CONSTANT", lineNumber := 3, contents := "a" },
           charIter := [(0, 'a')], output := [], stack := [] },
         Except.error (FinlError.BlankLineWhileParsingCommandArguments
           ⟨⟨"STRING CONSTANT", 3, 0⟩, "a"⟩ ("foo") 1)) ∧
    parse_required_argument 50 ("foo") 1 CommandContext.Text
        ParameterType.ParsedTokens (from_string (""))
      = ({ commands := [], environments := [], lines := [],
           line := { file := "", lineNumber := 0, contents := "" },
           charIter := [], output := [], stack := [] },
         Except.error (FinlError.UnexpectedEOFWhileParsingCommandArguments
           ⟨⟨"", 0, 0⟩, ""⟩ ("foo") 1)) :=
  ⟨c6_whitespace_skip_errors.1 49 1 ("foo") CommandContext.Text
      ParameterType.ParsedTokens (from_string ("\n\na"))
      { commands := [], environments := [], lines := [],
        line := { file := "STRING CONSTANT", lineNumber := 3, contents := "a" },
        charIter := [(0, 'a')], output := [], stack := [] } rfl,
   c6_whitespace_skip_errors.2.1 49 1 ("foo") CommandContext.Text
      ParameterType.ParsedTokens (from_string (""))
      { commands := [], environments := [], lines := [],
        line := { file := "", lineNumber := 0, contents := "" },
        charIter := [], output := [], stack := [] } rfl⟩

/-- Claim C8: when the text scanner meets `}` and the top of the group
stack is neither `Brace` nor `RequiredArgument` (the empty stack
included), it emits one `UnexpectedCloseBrace` error carrying the
mismatched or absent `GroupType`, and the resulting state differs from
the input state only in that error: in particular its group stack equals
the input stack (the entry popped in error is pushed back), so still-open
outer scopes stay tracked. -/
theorem c8_close_brace_preserves_stack (s : Parser) (column : Nat)
    (h1 : s.stack.head? ≠ some GroupType.Brace)
    (h2 : s.stack.head? ≠ some GroupType.RequiredArgument) :
    handle_close_brace s column
      = ({ s with output := s.output ++
            [Except.error (FinlError.UnexpectedCloseBrace
              (ErrorContext.from_line_and_column s.line column) s.stack.head?)] },
         false) := by
  rcases s with ⟨cm, en, ln, li, ci, out, st⟩
  cases st with
  | nil => simp [handle_close_brace, push_error, unexpected_close_brace]
  | cons g rest =>
      cases g <;> simp_all [handle_close_brace, push_error, unexpected_close_brace]

/-- Witness for C8: a `}` over a stack whose top is `OptionalArgument`
emits the error carrying that group type and leaves the stack as it was. -/
theorem c8_close_brace_preserves_stack_witness :
    handle_close_brace { from_string ("x") with stack := [GroupType.OptionalArgument] } 3
      = ({ { from_string ("x") with stack := [GroupType.OptionalArgument] } with
           output := [Except.error (FinlError.UnexpectedCloseBrace
             ⟨⟨"STRING CONSTANT", 1, 3⟩, "x"⟩ (some GroupType.OptionalArgument))] },
         false) :=
  c8_close_brace_preserves_stack
    { from_string ("x") with stack := [GroupType.OptionalArgument] } 3
    (by decide) (by decide)

/-- Claim C9: a backslash followed by a non-letter takes that single
character as the command name WITHOUT consuming it, so after the dispatch
the scanner re-reads it as ordinary input: `\{` with no command named by
the open brace yields `UndefinedCommand` for that name followed by a
`Bgroup` token for the very same character. -/
theorem c9_symbol_command_not_consumed :
    (∀ (s : Parser) (cctx : CommandContext) (c : Nat) (ch : Char)
       (rest : List (Nat × Char)),
       s.charIter = (c, ch) :: rest → letter_test ch = false →
       get_command_name s cctx = (ch.toString, s)) ∧
    parse 50 (from_string ("\\\x7b"))
      = [Except.error (FinlError.UndefinedCommand
           ⟨⟨"STRING CONSTANT", 1, 0⟩, "\\\x7b"⟩ ("\x7b")),
         Except.ok (Token.Bgroup ⟨"STRING CONSTANT", 1, 1⟩)] := by
  refine ⟨?_, rfl⟩
  intro s cctx c ch rest h1 h2
  simp [get_command_name, h1, h2]

/-- Witness for C9: reading the command name at a `{` leaves the cursor
untouched and names the command by that single character. -/
theorem c9_symbol_command_not_consumed_witness :
    get_command_name { from_string ("\\\x7b") with charIter := [(1, '{')] }
        CommandContext.Text
      = ("\x7b", { from_string ("\\\x7b") with charIter := [(1, '{')] }) :=
  c9_symbol_command_not_consumed.1
    { from_string ("\\\x7b") with charIter := [(1, '{')] }
    CommandContext.Text 1 '{' [] rfl rfl

/-- Claim C10: a backslash that ends its line (no character follows on
the line) names the command by a single space, and with no such command
registered the input `\` yields an `UndefinedCommand` error whose
command-name field is `" "`. -/
theorem c10_backslash_at_end_of_line :
    (∀ (s : Parser) (cctx : CommandContext), s.charIter = [] →
       get_command_name s cctx = (" ", s)) ∧
    parse 50 (from_string ("\\"))
      = [Except.error (FinlError.UndefinedCommand
           ⟨⟨"STRING CONSTANT", 1, 0⟩, "\\"⟩ (" "))] := by
  refine ⟨?_, rfl⟩
  intro s cctx h
  simp [get_command_name, h]

/-- Witness for C10: the command-name reader at end of line answers the
single-space name with the state unchanged. -/
theorem c10_backslash_at_end_of_line_witness :
    get_command_name { from_string ("\\") with charIter := ([] : List (Nat × Char)) }
        CommandContext.Text
      = (" ", { from_string ("\\") with charIter := ([] : List (Nat × Char)) }) :=
  c10_backslash_at_end_of_line.1
    { from_string ("\\") with charIter := ([] : List (Nat × Char)) }
    CommandContext.Text rfl

end FinlParse
